import Mathlib

/-!
Shallow embedding of the PlanMyTrip Streamlit application
(`PlanMyTrip.py`).  The application collects a trip request from a form,
validates it, builds five prompt-based tasks wired into a crew, and on
success offers a timestamped markdown download.  Dates are modelled as
proleptic ordinal day numbers (`Int`), so Python's
`(end_date - start_date).days` is exactly integer subtraction.  The LLM
`temperature=0.3` float literal is not modelled (floating point carries no
claim here); every other constructor argument of the crew is carried.
-/

namespace PlanMyTrip

/-- The form state read from the Streamlit widgets (lines 67-73).
`st.date_input` values are modelled as `Option Int` (ordinal day number);
`none` models an absent (falsy) date value, mirroring the truthiness test
`start_date and end_date` in the generate guard. -/
structure TripForm where
  from_city : String
  destination : String
  interests : String
  start_date : Option Int
  end_date : Option Int
  budget_type : String
deriving DecidableEq, Repr

/-- The five tasks of the pipeline, used to record `context` wiring. -/
inductive TaskId where
  | transport
  | stay
  | itinerary
  | budget
  | coordinator
deriving DecidableEq, Repr

/-- The LLM configuration built at line 93-97 (`model`, `api_key`;
`temperature=0.3` is a float literal, not modelled). -/
structure LLMSpec where
  model : String
  api_key : String
deriving DecidableEq, Repr

/-- An agent as constructed by `Agent(...)` (lines 102-149). -/
structure AgentSpec where
  role : String
  goal : String
  backstory : String
  llm : LLMSpec
  tools : List String
  verbose : Bool
  allow_delegation : Bool
deriving DecidableEq, Repr

/-- A task as constructed by `Task(...)` (lines 151-289); `context` is the
list of tasks passed as `context=[...]` (empty when the argument is
omitted). -/
structure TaskSpec where
  description : String
  expected_output : String
  agent : AgentSpec
  context : List TaskId
deriving DecidableEq, Repr

/-- The crew built at lines 291-295. -/
structure CrewSpec where
  agents : List AgentSpec
  tasks : List TaskSpec
  verbose : Bool
deriving DecidableEq, Repr

/-- A message rendered to the user via `st.error` / `st.info` /
`st.warning` / `st.success`. -/
inductive UIMsg where
  | error (s : String)
  | info (s : String)
  | warning (s : String)
  | success (s : String)
deriving DecidableEq, Repr

/-- One entry of the DuckDuckGo response's `RelatedTopics` list; the two
`Option` fields model presence of the `"Text"` and `"FirstURL"` keys
(line 52). -/
structure DDGItem where
  text : Option String
  firstURL : Option String
deriving DecidableEq, Repr

/-- Outcome of the HTTP call inside `duckduckgo_search` (lines 42-56):
either the request/parse raised an exception with message `msg` (caught by
the `except` clause), or it produced JSON whose `RelatedTopics` key is
modelled by an `Option (List DDGItem)` (`none` when the key is absent,
line 50). -/
inductive SearchOutcome where
  | failure (msg : String)
  | success (relatedTopics : Option (List DDGItem))
deriving DecidableEq, Repr

/-- Line 53: an item contributes `f"{item['Text']} - {item['FirstURL']}"`
exactly when both keys are present. -/
def formatItem (item : DDGItem) : Option String :=
  match item.text, item.firstURL with
  | some t, some u => some (t ++ " - " ++ u)
  | _, _ => none

/-- Lines 49-53: the `results` list — the first 3 entries of
`RelatedTopics` (when present), keeping those with both keys. -/
def searchResults (relatedTopics : Option (List DDGItem)) : List String :=
  match relatedTopics with
  | some topics => (topics.take 3).filterMap formatItem
  | none => []

/-- The body of `duckduckgo_search` (lines 42-56): on an exception the
handler returns `"Error fetching live info: " ++ str(e)`; otherwise the
collected results joined by newlines, or `"No live info found."` when no
entry qualified (line 54). -/
def duckduckgo_search (outcome : SearchOutcome) : String :=
  match outcome with
  | SearchOutcome.failure msg => "Error fetching live info: " ++ msg
  | SearchOutcome.success relatedTopics =>
      let results := searchResults relatedTopics
      if results.isEmpty then "No live info found."
      else String.intercalate "\n" results

/-- Line 79 / line 87: `trip_duration = (end_date - start_date).days`. -/
def trip_duration (start_date end_date : Int) : Int :=
  end_date - start_date

/-- Lines 75-80: the banner shown below the date pickers — an error when
`end_date <= start_date`, otherwise the trip-duration info line. -/
def datePreview (r : TripForm) : List UIMsg :=
  match r.start_date, r.end_date with
  | some s, some e =>
      if e ≤ s then [UIMsg.error "⚠️ End date must be after start date!"]
      else [UIMsg.info ("Trip Duration: " ++ toString (trip_duration s e) ++ " days")]
  | _, _ => []

/-- Lines 93-97. -/
def gemini_llm (gemini_api_key : String) : LLMSpec :=
  { model := "gemini/gemini-1.5-flash", api_key := gemini_api_key }

/-- Lines 102-110. -/
def transport_agent (gemini_api_key from_city destination : String) : AgentSpec :=
  { role := "Transportation Specialist"
    goal := "Find all transportation options from " ++ from_city ++ " to " ++ destination ++ " using real-time info"
    backstory := "Expert in all modes of transport with accurate cost and schedule info"
    llm := gemini_llm gemini_api_key
    tools := ["DuckDuckGo Search"]
    verbose := false
    allow_delegation := false }

/-- Lines 112-120. -/
def stay_agent (gemini_api_key destination budget_type : String) : AgentSpec :=
  { role := "Accommodation Specialist"
    goal := "Find 5-6 accommodation options in " ++ destination ++ " for " ++ budget_type ++ " travelers using live search"
    backstory := "Hotel and accommodation expert with real-time pricing info"
    llm := gemini_llm gemini_api_key
    tools := ["DuckDuckGo Search"]
    verbose := false
    allow_delegation := false }

/-- Lines 122-130. -/
def itinerary_agent (gemini_api_key : String) (trip_duration : Int) (destination : String) : AgentSpec :=
  { role := "Itinerary Planning Specialist"
    goal := "Create detailed day-wise itinerary for " ++ toString trip_duration ++ " days in " ++ destination ++ " with real-time info"
    backstory := "Planner who uses live info for attractions, timings, and schedules"
    llm := gemini_llm gemini_api_key
    tools := ["DuckDuckGo Search"]
    verbose := false
    allow_delegation := false }

/-- Lines 132-140. -/
def budget_agent (gemini_api_key budget_type : String) : AgentSpec :=
  { role := "Budget Analysis Specialist"
    goal := "Calculate total trip cost estimation for " ++ budget_type ++ " travel using live info"
    backstory := "Financial expert who uses live info to calculate transportation and accommodation costs"
    llm := gemini_llm gemini_api_key
    tools := ["DuckDuckGo Search"]
    verbose := false
    allow_delegation := false }

/-- Lines 142-149. -/
def coordinator_agent (gemini_api_key : String) : AgentSpec :=
  { role := "Travel Plan Coordinator"
    goal := "Merge all agent outputs into one clean, readable final travel plan"
    backstory := "Master coordinator combining all travel info into a comprehensive plan"
    llm := gemini_llm gemini_api_key
    tools := []
    verbose := false
    allow_delegation := false }

/-- The `description` f-string of `transport_task` (lines 152-182),
transcribed byte for byte (the multi-line literal keeps every newline,
indent and trailing space of the source). -/
def transport_description (from_city destination : String) : String :=
  "
                        Research transportation options from " ++ from_city ++ " to " ++ destination ++ ".

                        Provide:
                        ## 🚆 Transportation Options

                        ### ✈️ Flight Options
                        - Airlines available
                        - Duration and cost range
                        - Best booking platforms

                        ### 🚂 Train Options  
                        - Train services available
                        - Duration and cost
                        - Booking tips

                        ### 🚌 Bus Options
                        - Bus operators (government/private)
                        - Duration and cost
                        - Comfort levels

                        ### 🚗 Taxi/Car Options
                        - Taxi services
                        - Car rental options
                        - Approximate costs

                        ### 🚇 Local Transport in " ++ destination ++ "
                        - Public transport options
                        - Auto/taxi rates
                        - Transport passes available
                        "

/-- The `description` f-string of `stay_task` (lines 188-210). -/
def stay_description (destination budget_type : String) : String :=
  "
                        Find 5-6 accommodation options in " ++ destination ++ " for " ++ budget_type ++ " travelers.

                        Format:
                        ## 🏨 Accommodation Options

                        ### Option 1: [Hotel Name]
                        **Type:** [Hotel/Resort/Guesthouse]
                        **Price Range:** ₹X - ₹Y per night
                        **Location:** [Area/neighborhood]
                        **Rating:** [Star rating or review score]

                        **Perks:**
                        - [Advantage 1]
                        - [Advantage 2]
                        - [Advantage 3]

                        **Cons:**
                        - [Disadvantage 1]
                        - [Disadvantage 2]

                        [Continue for 5-6 options covering different price ranges within " ++ budget_type ++ " category]
                        "

/-- The `description` f-string of `itinerary_task` (lines 216-234). -/
def itinerary_description (trip_duration : Int) (destination interests : String) : String :=
  "
                        Create a " ++ toString trip_duration ++ "-day detailed itinerary for " ++ destination ++ ".
                        Focus on interests: " ++ interests ++ "

                        Format each day:
                        ## Day X: [Date] - [Theme]
                        - 08:00 - 09:00: Breakfast at [place]
                        - 09:00 - 11:00: [Activity with location]
                        - 11:00 - 11:30: Travel/break time
                        - 11:30 - 13:00: [Next activity]
                        - 13:00 - 14:00: Lunch at [restaurant]
                        - 14:00 - 16:00: [Afternoon activity]
                        - 16:00 - 18:00: [Another activity]
                        - 18:00 - 19:00: Rest/return to hotel
                        - 19:00 - 21:00: Dinner at [restaurant]
                        - 21:00 - 22:00: [Evening activity/rest]

                        Include activities matching: " ++ interests ++ "
                        "

/-- The `description` f-string of `budget_task` (lines 240-269). -/
def budget_description (trip_duration : Int) (destination budget_type from_city : String) : String :=
  "
                        Calculate total cost estimation for this " ++ toString trip_duration ++ "-day trip to " ++ destination ++ ".
                        Budget category: " ++ budget_type ++ "

                        Calculate costs for:
                        ## 💸 Budget Breakdown

                        ### Transportation Costs
                        - " ++ from_city ++ " to " ++ destination ++ ": ₹X - ₹Y
                        - Local transport: ₹X per day

                        ### Accommodation Costs  
                        - Per night: ₹X - ₹Y
                        - Total (" ++ toString trip_duration ++ " nights): ₹X - ₹Y

                        ### Food Costs
                        - Breakfast: ₹X per day
                        - Lunch: ₹X per day  
                        - Dinner: ₹X per day
                        - Total food (" ++ toString trip_duration ++ " days): ₹X - ₹Y

                        ### Activity Costs
                        - Entry fees and activities: ₹X - ₹Y

                        ### Miscellaneous
                        - Shopping, tips, extras: ₹X - ₹Y

                        ## 💰 Final Estimation
                        **Estimated total cost for a " ++ budget_type ++ " trip is ₹X – ₹Y**
                        "

/-- The `description` f-string of `coordinator_task` (lines 276-285). -/
def coordinator_description (from_city destination : String) : String :=
  "
                        Merge all the outputs from transport, accommodation, itinerary, and budget agents into one clean, readable final travel plan.

                        Create a comprehensive plan with:
                        # 🌍 Complete Travel Plan: " ++ from_city ++ " → " ++ destination ++ "

                        [Include all sections from other agents in a well-organized manner]

                        Make it clean, readable, and professional.
                        "

/-- Lines 151-185: `transport_task` (no `context` argument). -/
def transport_task (gemini_api_key from_city destination : String) : TaskSpec :=
  { description := transport_description from_city destination
    expected_output := "Comprehensive transportation guide with all modes of transport and costs"
    agent := transport_agent gemini_api_key from_city destination
    context := [] }

/-- Lines 187-213: `stay_task` (no `context` argument). -/
def stay_task (gemini_api_key destination budget_type : String) : TaskSpec :=
  { description := stay_description destination budget_type
    expected_output := "5-6 detailed accommodation options with pros/cons, prices, and locations"
    agent := stay_agent gemini_api_key destination budget_type
    context := [] }

/-- Lines 215-237: `itinerary_task` (no `context` argument); its
`expected_output` also interpolates `trip_duration`. -/
def itinerary_task (gemini_api_key : String) (trip_duration : Int) (destination interests : String) : TaskSpec :=
  { description := itinerary_description trip_duration destination interests
    expected_output := "Complete " ++ toString trip_duration ++ "-day itinerary with time slots and activities"
    agent := itinerary_agent gemini_api_key trip_duration destination
    context := [] }

/-- Lines 239-273: `budget_task`, with
`context=[transport_task, stay_task, itinerary_task]` (line 272). -/
def budget_task (gemini_api_key : String) (trip_duration : Int) (destination budget_type from_city : String) : TaskSpec :=
  { description := budget_description trip_duration destination budget_type from_city
    expected_output := "Detailed budget breakdown with final cost estimation"
    agent := budget_agent gemini_api_key budget_type
    context := [TaskId.transport, TaskId.stay, TaskId.itinerary] }

/-- Lines 275-289: `coordinator_task`, with
`context=[transport_task, stay_task, itinerary_task, budget_task]`
(line 288). -/
def coordinator_task (gemini_api_key from_city destination : String) : TaskSpec :=
  { description := coordinator_description from_city destination
    expected_output := "Complete, well-organized travel plan combining all agent outputs"
    agent := coordinator_agent gemini_api_key
    context := [TaskId.transport, TaskId.stay, TaskId.itinerary, TaskId.budget] }

/-- The `tasks=[...]` list of the crew (line 293). -/
def tripTasks (gemini_api_key from_city destination interests : String) (trip_duration : Int) (budget_type : String) : List TaskSpec :=
  [transport_task gemini_api_key from_city destination,
   stay_task gemini_api_key destination budget_type,
   itinerary_task gemini_api_key trip_duration destination interests,
   budget_task gemini_api_key trip_duration destination budget_type from_city,
   coordinator_task gemini_api_key from_city destination]

/-- The five task `description` strings in pipeline order. -/
def taskDescriptions (from_city destination interests : String) (trip_duration : Int) (budget_type : String) : List String :=
  [transport_description from_city destination,
   stay_description destination budget_type,
   itinerary_description trip_duration destination interests,
   budget_description trip_duration destination budget_type from_city,
   coordinator_description from_city destination]

/-- Lines 291-295: the crew. -/
def buildCrew (gemini_api_key from_city destination interests : String) (trip_duration : Int) (budget_type : String) : CrewSpec :=
  { agents := [transport_agent gemini_api_key from_city destination,
               stay_agent gemini_api_key destination budget_type,
               itinerary_agent gemini_api_key trip_duration destination,
               budget_agent gemini_api_key budget_type,
               coordinator_agent gemini_api_key]
    tasks := tripTasks gemini_api_key from_city destination interests trip_duration budget_type
    verbose := false }

/-- Line 355: the single warning shown when the generate-button guard
fails. -/
def validationWarning : String :=
  "⚠️ Please fill in all required fields and ensure end date is after start date!"

/-- What pressing the generate button leads to: either the validation
warning (nothing external is built), or a fully built crew handed to
`kickoff`. -/
inductive Outcome where
  | reject (warning : String)
  | run (crew : CrewSpec)
deriving DecidableEq, Repr

/-- Lines 85-97 and 354-355: the generate-button guard
`if from_city and destination and interests and start_date and end_date
and end_date > start_date` — Python string truthiness is `≠ ""`, date
truthiness is presence — and, on success, the crew construction with
`trip_duration = (end_date - start_date).days`. -/
def handleGenerate (gemini_api_key : String) (r : TripForm) : Outcome :=
  match r.start_date, r.end_date with
  | some s, some e =>
      if r.from_city ≠ "" ∧ r.destination ≠ "" ∧ r.interests ≠ "" ∧ s < e then
        Outcome.run (buildCrew gemini_api_key r.from_city r.destination r.interests
          (trip_duration s e) r.budget_type)
      else Outcome.reject validationWarning
  | _, _ => Outcome.reject validationWarning

/-- A wall-clock datetime as used by `datetime.datetime.now()`. -/
structure PyDateTime where
  year : Nat
  month : Nat
  day : Nat
  hour : Nat
  minute : Nat
  second : Nat
deriving DecidableEq, Repr

/-- Two-digit zero-padded decimal field, as `%m`, `%d`, `%H`, `%M`, `%S`
render values below 100. -/
def pad2 (n : Nat) : String :=
  String.mk [Nat.digitChar (n / 10 % 10), Nat.digitChar (n % 10)]

/-- Four-digit decimal year as `%Y` renders years 1000-9999. -/
def pad4 (n : Nat) : String :=
  String.mk [Nat.digitChar (n / 1000 % 10), Nat.digitChar (n / 100 % 10),
             Nat.digitChar (n / 10 % 10), Nat.digitChar (n % 10)]

/-- Line 315: `datetime.datetime.now().strftime("%Y%m%d_%H%M%S")`. -/
def strftimeTimestamp (t : PyDateTime) : String :=
  pad4 t.year ++ pad2 t.month ++ pad2 t.day ++ "_" ++
    pad2 t.hour ++ pad2 t.minute ++ pad2 t.second

/-- Python's `destination.replace(' ', '_')`: for a one-character pattern
and one-character replacement this is exactly a per-character
substitution. -/
def replaceSpaces (s : String) : String :=
  String.mk (s.data.map fun c => if c = ' ' then '_' else c)

/-- Line 316:
`f"multi_agent_travel_plan_{destination.replace(' ', '_')}_{timestamp}.md"`. -/
def downloadFilename (destination : String) (t : PyDateTime) : String :=
  "multi_agent_travel_plan_" ++ replaceSpaces destination ++ "_" ++
    strftimeTimestamp t ++ ".md"

/-- The runtime kind of an exception escaping the `try` block; the code
catches bare `Exception`, so the kind is never inspected. -/
inductive ExnKind where
  | credential
  | network
  | malformedResponse
  | other
deriving DecidableEq, Repr

/-- Lines 350-352: `except Exception as e` renders
`st.error(f"❌ Error: {str(e)}")` and a fixed `st.info` hint; only
`str(e)` is used, never the exception's type. -/
def exceptHandler (kind : ExnKind) (msg : String) : List UIMsg :=
  match kind with
  | _ => [UIMsg.error ("❌ Error: " ++ msg),
          UIMsg.info "💡 Please check your API key and try again"]

/-- Lines 318-339: the download document.  `gen_date` stands for
`datetime.datetime.now().strftime('%B %d, %Y at %I:%M %p')`, `start_s`
and `end_s` for `str(start_date)` / `str(end_date)`, `result` for
`str(result)`.  The literal is chunked around the `**Duration:**` line
but concatenates to the exact source text. -/
def downloadContent (from_city destination : String) (gen_date start_s end_s : String) (trip_duration : Int) (interests budget_type result : String) : String :=
  "# 🌍 Multi-Agent AI Travel Plan: " ++ from_city ++ " → " ++ destination ++ "

**Generated by:** 5 Specialized AI Agents
**Date:** " ++ gen_date ++ "
**Trip Dates:** " ++ start_s ++ " to " ++ end_s ++ "
" ++ "**Duration:** " ++ toString trip_duration ++ " days" ++ "
**Interests:** " ++ interests ++ "
**Budget Type:** " ++ budget_type ++ "

---

" ++ result ++ "

---

*🧠 Generated using Multi-Agent Architecture:*
- 🚆 TransportAgent: Transportation options
- 🏨 StayAgent: Accommodation recommendations  
- 📅 ItineraryAgent: Day-wise scheduling
- 💸 BudgetAgent: Cost estimation
- 🔄 CoordinatorAgent: Final plan coordination
"

/-- Any digit produced by `Nat.digitChar` on a `% 10` value is a digit
character. -/
theorem digitChar_mod_isDigit (n : Nat) : (Nat.digitChar (n % 10)).isDigit = true := by
  have h : n % 10 < 10 := Nat.mod_lt _ (by norm_num)
  have hall : ∀ m, m < 10 → (Nat.digitChar m).isDigit = true := by decide
  exact hall _ h

/-- Every validation failure (an empty text field, a missing date, or
`end_date ≤ start_date`) lands in the single warning branch. -/
theorem handleGenerate_reject_of_invalid (k : String) (r : TripForm)
    (h : r.from_city = "" ∨ r.destination = "" ∨ r.interests = "" ∨
      r.start_date = none ∨ r.end_date = none ∨
      ∃ s e, r.start_date = some s ∧ r.end_date = some e ∧ e ≤ s) :
    handleGenerate k r = Outcome.reject validationWarning := by
  obtain ⟨fc, dst, int, sd, ed, bt⟩ := r
  cases sd with
  | none => rfl
  | some s =>
    cases ed with
    | none => rfl
    | some e =>
      rw [show handleGenerate k ⟨fc, dst, int, some s, some e, bt⟩ =
          (if fc ≠ "" ∧ dst ≠ "" ∧ int ≠ "" ∧ s < e then
            Outcome.run (buildCrew k fc dst int (trip_duration s e) bt)
          else Outcome.reject validationWarning) from rfl]
      rw [if_neg]
      rintro ⟨h1, h2, h3, h4⟩
      rcases h with hx | hx | hx | hx | hx | ⟨s2, e2, hs2, he2, hle⟩
      · exact h1 hx
      · exact h2 hx
      · exact h3 hx
      · exact Option.noConfusion hx
      · exact Option.noConfusion hx
      · obtain rfl := Option.some.inj hs2
        obtain rfl := Option.some.inj he2
        omega

/-- C1: for every request with `endDate ≤ startDate` or an empty field,
the generate handler rejects with the validation warning and never
produces a crew — so no LLM, agent, task or kickoff is reached (the
reject outcome carries nothing but the warning text). -/
theorem C1_invalid_request_rejected (k : String) (r : TripForm)
    (h : r.from_city = "" ∨ r.destination = "" ∨ r.interests = "" ∨
      r.start_date = none ∨ r.end_date = none ∨
      ∃ s e, r.start_date = some s ∧ r.end_date = some e ∧ e ≤ s) :
    handleGenerate k r = Outcome.reject validationWarning ∧
    ¬ ∃ crew, handleGenerate k r = Outcome.run crew := by
  have hr := handleGenerate_reject_of_invalid k r h
  refine ⟨hr, ?_⟩
  rintro ⟨crew, hc⟩
  rw [hr] at hc
  exact Outcome.noConfusion hc

/-- Witness for C1 at the spec's failure scenario start=2024-12-23,
end=2024-12-20 (ordinal days 23 and 20). -/
theorem C1_invalid_request_rejected_witness :
    (20 : Int) ≤ 23 ∧
    (handleGenerate "key" ⟨"Chennai", "Goa", "beaches, food", some 23, some 20, "moderate"⟩ =
      Outcome.reject validationWarning ∧
    ¬ ∃ crew, handleGenerate "key" ⟨"Chennai", "Goa", "beaches, food", some 23, some 20, "moderate"⟩ =
      Outcome.run crew) :=
  ⟨by decide,
   C1_invalid_request_rejected "key" ⟨"Chennai", "Goa", "beaches, food", some 23, some 20, "moderate"⟩
     (Or.inr (Or.inr (Or.inr (Or.inr (Or.inr ⟨23, 20, rfl, rfl, by decide⟩)))))⟩

/-- C2: prompt building is deterministic — equal field values (origin,
destination, interests, start date, end date, budget tier) give
byte-identical transport, stay, itinerary, budget and coordinator task
descriptions. -/
theorem C2_prompt_build_deterministic
    (fc1 d1 i1 : String) (s1 e1 : Int) (bt1 : String)
    (fc2 d2 i2 : String) (s2 e2 : Int) (bt2 : String)
    (hfc : fc1 = fc2) (hd : d1 = d2) (hi : i1 = i2)
    (hs : s1 = s2) (he : e1 = e2) (hbt : bt1 = bt2) :
    taskDescriptions fc1 d1 i1 (trip_duration s1 e1) bt1 =
      taskDescriptions fc2 d2 i2 (trip_duration s2 e2) bt2 := by
  subst hfc
  subst hd
  subst hi
  subst hs
  subst he
  subst hbt
  rfl

/-- Witness for C2 at the spec's example scenario. -/
theorem C2_prompt_build_deterministic_witness :
    ("Chennai" : String) = "Chennai" ∧
    taskDescriptions "Chennai" "Goa" "beaches, food" (trip_duration 20 23) "moderate" =
      taskDescriptions "Chennai" "Goa" "beaches, food" (trip_duration 20 23) "moderate" :=
  ⟨rfl,
   C2_prompt_build_deterministic "Chennai" "Goa" "beaches, food" 20 23 "moderate"
     "Chennai" "Goa" "beaches, food" 20 23 "moderate" rfl rfl rfl rfl rfl rfl⟩

/-- C3: for all inputs the budget task's context is exactly
[transport, stay, itinerary] and the coordinator task's context is
exactly [transport, stay, itinerary, budget]; the wiring is a constant
independent of the input. -/
theorem C3_pipeline_wiring_constant (k from_city destination interests : String)
    (trip_duration : Int) (budget_type : String) :
    (budget_task k trip_duration destination budget_type from_city).context =
      [TaskId.transport, TaskId.stay, TaskId.itinerary] ∧
    (coordinator_task k from_city destination).context =
      [TaskId.transport, TaskId.stay, TaskId.itinerary, TaskId.budget] ∧
    ((tripTasks k from_city destination interests trip_duration budget_type).map TaskSpec.context) =
      [[], [], [], [TaskId.transport, TaskId.stay, TaskId.itinerary],
       [TaskId.transport, TaskId.stay, TaskId.itinerary, TaskId.budget]] :=
  ⟨rfl, rfl, rfl⟩

/-- C4: on every accepted request the duration equals
`end_date - start_date` in whole days, is at least 1, is the value the
crew's prompts are built from, is the value shown in the info banner, and
is the value embedded in the download document's Duration line. -/
theorem C4_trip_duration_days (k : String) (r : TripForm) (s e : Int)
    (hs : r.start_date = some s) (he : r.end_date = some e)
    (hrun : ∃ crew, handleGenerate k r = Outcome.run crew) :
    trip_duration s e = e - s ∧
    1 ≤ trip_duration s e ∧
    handleGenerate k r = Outcome.run (buildCrew k r.from_city r.destination r.interests
      (trip_duration s e) r.budget_type) ∧
    datePreview r = [UIMsg.info ("Trip Duration: " ++ toString (trip_duration s e) ++ " days")] ∧
    (∀ gd sd ed res : String, ∃ pre post : String,
      downloadContent r.from_city r.destination gd sd ed (trip_duration s e)
        r.interests r.budget_type res =
      pre ++ ("**Duration:** " ++ toString (trip_duration s e) ++ " days") ++ post) := by
  obtain ⟨fc, dst, int, sd, ed, bt⟩ := r
  have hs2 : sd = some s := hs
  have he2 : ed = some e := he
  subst hs2
  subst he2
  have hgen : handleGenerate k ⟨fc, dst, int, some s, some e, bt⟩ =
      (if fc ≠ "" ∧ dst ≠ "" ∧ int ≠ "" ∧ s < e then
        Outcome.run (buildCrew k fc dst int (trip_duration s e) bt)
      else Outcome.reject validationWarning) := rfl
  obtain ⟨crew, hc⟩ := hrun
  rw [hgen] at hc
  by_cases hcond : fc ≠ "" ∧ dst ≠ "" ∧ int ≠ "" ∧ s < e
  case neg =>
    rw [if_neg hcond] at hc
    exact absurd hc (fun hx => Outcome.noConfusion hx)
  case pos =>
    obtain ⟨h1, h2, h3, hlt⟩ := hcond
    refine ⟨rfl, ?_, ?_, ?_, ?_⟩
    · unfold trip_duration
      omega
    · rw [hgen, if_pos ⟨h1, h2, h3, hlt⟩]
    · rw [show datePreview ⟨fc, dst, int, some s, some e, bt⟩ =
          (if e ≤ s then [UIMsg.error "⚠️ End date must be after start date!"]
          else [UIMsg.info ("Trip Duration: " ++ toString (trip_duration s e) ++ " days")]) from rfl]
      rw [if_neg (by omega)]
    · intro gd sd2 ed2 res
      refine ⟨"# 🌍 Multi-Agent AI Travel Plan: " ++ fc ++ " → " ++ dst ++
          "\n\n**Generated by:** 5 Specialized AI Agents\n**Date:** " ++ gd ++
          "\n**Trip Dates:** " ++ sd2 ++ " to " ++ ed2 ++ "\n",
        "\n**Interests:** " ++ int ++ "\n**Budget Type:** " ++ bt ++
          "\n\n---\n\n" ++ res ++
          "\n\n---\n\n*🧠 Generated using Multi-Agent Architecture:*\n- 🚆 TransportAgent: Transportation options\n- 🏨 StayAgent: Accommodation recommendations  \n- 📅 ItineraryAgent: Day-wise scheduling\n- 💸 BudgetAgent: Cost estimation\n- 🔄 CoordinatorAgent: Final plan coordination\n", ?_⟩
      simp only [downloadContent, String.append_assoc]

/-- Witness for C4 at the spec's example scenario (start ordinal 20,
end ordinal 23, duration 3). -/
theorem C4_trip_duration_days_witness :
    (20 : Int) < 23 ∧
    trip_duration 20 23 = 3 ∧
    1 ≤ trip_duration 20 23 ∧
    datePreview ⟨"Chennai", "Goa", "beaches, food", some 20, some 23, "moderate"⟩ =
      [UIMsg.info "Trip Duration: 3 days"] ∧
    (∃ pre post : String,
      downloadContent "Chennai" "Goa" "gd" "sd" "ed" (trip_duration 20 23)
        "beaches, food" "moderate" "res" =
      pre ++ ("**Duration:** " ++ toString (trip_duration 20 23) ++ " days") ++ post) := by
  have h := C4_trip_duration_days "key"
    ⟨"Chennai", "Goa", "beaches, food", some 20, some 23, "moderate"⟩ 20 23 rfl rfl ⟨_, rfl⟩
  exact ⟨by decide, by decide, h.2.1, h.2.2.2.1.trans (by decide),
    h.2.2.2.2 "gd" "sd" "ed" "res"⟩

/-- C5: for a real wall-clock datetime, the download filename is the
fixed prefix, the destination with spaces replaced by underscores, an
underscore, a YYYYMMDD_HHMMSS timestamp holding exactly 14 digits, and
the suffix .md. -/
theorem C5_download_filename_shape (destination : String) (t : PyDateTime)
    (_hy1 : 1000 ≤ t.year) (_hy2 : t.year ≤ 9999) (_hm : t.month ≤ 12) (_hd : t.day ≤ 31)
    (_hh : t.hour ≤ 23) (_hmi : t.minute ≤ 59) (_hsec : t.second ≤ 59) :
    ∃ dpart tpart : String,
      downloadFilename destination t =
        "multi_agent_travel_plan_" ++ replaceSpaces destination ++ "_" ++
          (dpart ++ "_" ++ tpart) ++ ".md" ∧
      dpart.length = 8 ∧ tpart.length = 6 ∧
      (∀ c ∈ dpart.data, c.isDigit = true) ∧
      (∀ c ∈ tpart.data, c.isDigit = true) ∧
      ((dpart ++ "_" ++ tpart).data.filter Char.isDigit).length = 14 := by
  refine ⟨pad4 t.year ++ pad2 t.month ++ pad2 t.day,
          pad2 t.hour ++ pad2 t.minute ++ pad2 t.second, ?_, rfl, rfl, ?_, ?_, ?_⟩
  · unfold downloadFilename strftimeTimestamp
    simp only [String.append_assoc]
  · intro c hc
    have hdata : (pad4 t.year ++ pad2 t.month ++ pad2 t.day).data =
        [Nat.digitChar (t.year / 1000 % 10), Nat.digitChar (t.year / 100 % 10),
         Nat.digitChar (t.year / 10 % 10), Nat.digitChar (t.year % 10),
         Nat.digitChar (t.month / 10 % 10), Nat.digitChar (t.month % 10),
         Nat.digitChar (t.day / 10 % 10), Nat.digitChar (t.day % 10)] := rfl
    rw [hdata] at hc
    simp only [List.mem_cons, List.not_mem_nil, or_false] at hc
    rcases hc with rfl | rfl | rfl | rfl | rfl | rfl | rfl | rfl <;>
      exact digitChar_mod_isDigit _
  · intro c hc
    have hdata : (pad2 t.hour ++ pad2 t.minute ++ pad2 t.second).data =
        [Nat.digitChar (t.hour / 10 % 10), Nat.digitChar (t.hour % 10),
         Nat.digitChar (t.minute / 10 % 10), Nat.digitChar (t.minute % 10),
         Nat.digitChar (t.second / 10 % 10), Nat.digitChar (t.second % 10)] := rfl
    rw [hdata] at hc
    simp only [List.mem_cons, List.not_mem_nil, or_false] at hc
    rcases hc with rfl | rfl | rfl | rfl | rfl | rfl <;>
      exact digitChar_mod_isDigit _
  · have hdata : ((pad4 t.year ++ pad2 t.month ++ pad2 t.day) ++ "_" ++
        (pad2 t.hour ++ pad2 t.minute ++ pad2 t.second)).data =
        [Nat.digitChar (t.year / 1000 % 10), Nat.digitChar (t.year / 100 % 10),
         Nat.digitChar (t.year / 10 % 10), Nat.digitChar (t.year % 10),
         Nat.digitChar (t.month / 10 % 10), Nat.digitChar (t.month % 10),
         Nat.digitChar (t.day / 10 % 10), Nat.digitChar (t.day % 10), '_',
         Nat.digitChar (t.hour / 10 % 10), Nat.digitChar (t.hour % 10),
         Nat.digitChar (t.minute / 10 % 10), Nat.digitChar (t.minute % 10),
         Nat.digitChar (t.second / 10 % 10), Nat.digitChar (t.second % 10)] := rfl
    rw [hdata]
    simp only [List.filter_cons, digitChar_mod_isDigit, if_pos,
      show Char.isDigit '_' = false from rfl, if_neg, Bool.false_eq_true,
      not_false_eq_true, List.filter_nil]
    rfl

/-- Witness for C5 at 2024-12-20 09:30:05 and a destination containing a
space; the filename evaluates concretely to the claimed shape. -/
theorem C5_download_filename_shape_witness :
    1000 ≤ 2024 ∧ 2024 ≤ 9999 ∧ 12 ≤ 12 ∧ 20 ≤ 31 ∧ 9 ≤ 23 ∧ 30 ≤ 59 ∧ 5 ≤ 59 ∧
    downloadFilename "Old Goa" ⟨2024, 12, 20, 9, 30, 5⟩ =
      "multi_agent_travel_plan_Old_Goa_20241220_093005.md" ∧
    (∃ dpart tpart : String,
      downloadFilename "Old Goa" ⟨2024, 12, 20, 9, 30, 5⟩ =
        "multi_agent_travel_plan_" ++ replaceSpaces "Old Goa" ++ "_" ++
          (dpart ++ "_" ++ tpart) ++ ".md" ∧
      dpart.length = 8 ∧ tpart.length = 6 ∧
      (∀ c ∈ dpart.data, c.isDigit = true) ∧
      (∀ c ∈ tpart.data, c.isDigit = true) ∧
      ((dpart ++ "_" ++ tpart).data.filter Char.isDigit).length = 14) :=
  ⟨by decide, by decide, by decide, by decide, by decide, by decide, by decide, by decide,
   C5_download_filename_shape "Old Goa" ⟨2024, 12, 20, 9, 30, 5⟩
     (by decide) (by decide) (by decide) (by decide) (by decide) (by decide) (by decide)⟩

/-- C6 counterexample: on a failed search call (exception text
"timed out") the function returns the error string, not the placeholder
"No live info found." the claim states. -/
theorem C6_search_failure_counterexample :
    duckduckgo_search (SearchOutcome.failure "timed out") =
      "Error fetching live info: timed out" ∧
    duckduckgo_search (SearchOutcome.failure "timed out") ≠ "No live info found." :=
  ⟨rfl, by decide⟩

/-- C6 amended: when the search call fails, `duckduckgo_search` swallows
the exception and returns "Error fetching live info: " followed by the
exception text (so the pipeline is not aborted); the placeholder
"No live info found." belongs to the no-qualifying-result success path. -/
theorem C6_search_failure_returns_error_string (msg : String) :
    duckduckgo_search (SearchOutcome.failure msg) = "Error fetching live info: " ++ msg :=
  rfl

/-- C7 counterexample: a request failing only the non-empty-field
constraint (empty origin, valid dates 20 < 23) and a request failing only
the date-order constraint (all fields filled, end 20 ≤ start 23) receive
the identical rejection message, so the validation error does not
describe which specific constraint failed. -/
theorem C7_indistinguishable_warning_counterexample :
    handleGenerate "key" ⟨"", "Goa", "beaches, food", some 20, some 23, "moderate"⟩ =
      Outcome.reject validationWarning ∧
    handleGenerate "key" ⟨"Chennai", "Goa", "beaches, food", some 23, some 20, "moderate"⟩ =
      Outcome.reject validationWarning ∧
    (TripForm.mk "" "Goa" "beaches, food" (some 20) (some 23) "moderate").from_city = "" ∧
    (20 : Int) < 23 ∧
    (TripForm.mk "Chennai" "Goa" "beaches, food" (some 23) (some 20) "moderate").from_city ≠ "" ∧
    (TripForm.mk "Chennai" "Goa" "beaches, food" (some 23) (some 20) "moderate").destination ≠ "" ∧
    (TripForm.mk "Chennai" "Goa" "beaches, food" (some 23) (some 20) "moderate").interests ≠ "" ∧
    (20 : Int) ≤ 23 := by
  decide

/-- C7 amended: every validation failure is reported (never silent), but
through the single fixed combined warning that does not identify the
failed constraint; separately, whenever both dates are set with
`end ≤ start` the date-order error banner is shown. -/
theorem C7_fixed_warning_never_silent (k : String) (r : TripForm)
    (h : r.from_city = "" ∨ r.destination = "" ∨ r.interests = "" ∨
      r.start_date = none ∨ r.end_date = none ∨
      ∃ s e, r.start_date = some s ∧ r.end_date = some e ∧ e ≤ s) :
    handleGenerate k r = Outcome.reject validationWarning ∧
    validationWarning ≠ "" ∧
    (∀ s e, r.start_date = some s → r.end_date = some e → e ≤ s →
      datePreview r = [UIMsg.error "⚠️ End date must be after start date!"]) := by
  refine ⟨handleGenerate_reject_of_invalid k r h, by decide, ?_⟩
  intro s e hs he hle
  obtain ⟨fc, dst, int, sd, ed, bt⟩ := r
  have hs2 : sd = some s := hs
  have he2 : ed = some e := he
  subst hs2
  subst he2
  rw [show datePreview ⟨fc, dst, int, some s, some e, bt⟩ =
      (if e ≤ s then [UIMsg.error "⚠️ End date must be after start date!"]
      else [UIMsg.info ("Trip Duration: " ++ toString (trip_duration s e) ++ " days")]) from rfl]
  rw [if_pos hle]

/-- Witness for C7's amended statement at the date-order failure
start=23, end=20. -/
theorem C7_fixed_warning_never_silent_witness :
    (20 : Int) ≤ 23 ∧
    handleGenerate "key" ⟨"Chennai", "Goa", "beaches, food", some 23, some 20, "moderate"⟩ =
      Outcome.reject validationWarning ∧
    datePreview ⟨"Chennai", "Goa", "beaches, food", some 23, some 20, "moderate"⟩ =
      [UIMsg.error "⚠️ End date must be after start date!"] := by
  have h := C7_fixed_warning_never_silent "key"
    ⟨"Chennai", "Goa", "beaches, food", some 23, some 20, "moderate"⟩
    (Or.inr (Or.inr (Or.inr (Or.inr (Or.inr ⟨23, 20, rfl, rfl, by decide⟩)))))
  exact ⟨by decide, h.1, h.2.2 23 20 rfl rfl (by decide)⟩

/-- C8: every pipeline exception, whatever its kind, is rendered by the
one generic handler: an error line carrying the exception text verbatim
plus the fixed API-key hint; the handler never inspects the kind. -/
theorem C8_generic_error_handler (kind1 kind2 : ExnKind) (msg : String) :
    exceptHandler kind1 msg = exceptHandler kind2 msg ∧
    exceptHandler kind1 msg =
      [UIMsg.error ("❌ Error: " ++ msg),
       UIMsg.info "💡 Please check your API key and try again"] ∧
    ∃ p, "❌ Error: " ++ msg = p ++ msg :=
  ⟨rfl, rfl, "❌ Error: ", rfl⟩

/-- C9: on a successful response the search returns at most 3 lines,
drawn only from the first 3 RelatedTopics entries having both Text and
FirstURL, each formatted Text - FirstURL and joined by newlines, with
"No live info found." when no entry qualifies. -/
theorem C9_search_success_shape (relatedTopics : Option (List DDGItem)) :
    (searchResults relatedTopics).length ≤ 3 ∧
    (searchResults relatedTopics = [] →
      duckduckgo_search (SearchOutcome.success relatedTopics) = "No live info found.") ∧
    (searchResults relatedTopics ≠ [] →
      duckduckgo_search (SearchOutcome.success relatedTopics) =
        String.intercalate "\n" (searchResults relatedTopics)) ∧
    (∀ line ∈ searchResults relatedTopics, ∃ topics item,
      relatedTopics = some topics ∧ item ∈ topics.take 3 ∧
      ∃ tx u, item.text = some tx ∧ item.firstURL = some u ∧ line = tx ++ " - " ++ u) := by
  refine ⟨?_, ?_, ?_, ?_⟩
  · cases relatedTopics with
    | none => simp [searchResults]
    | some topics =>
      calc ((topics.take 3).filterMap formatItem).length
          ≤ (topics.take 3).length := List.length_filterMap_le _ _
        _ ≤ 3 := by rw [List.length_take]; exact min_le_left _ _
  · intro h
    simp [duckduckgo_search, h]
  · intro h
    simp [duckduckgo_search, List.isEmpty_iff, h]
  · intro line hline
    cases relatedTopics with
    | none => simp [searchResults] at hline
    | some topics =>
      simp only [searchResults] at hline
      obtain ⟨item, hmem, hfmt⟩ := List.mem_filterMap.mp hline
      refine ⟨topics, item, rfl, hmem, ?_⟩
      unfold formatItem at hfmt
      cases htx : item.text with
      | none => rw [htx] at hfmt; exact Option.noConfusion hfmt
      | some tx =>
        cases hurl : item.firstURL with
        | none => rw [htx, hurl] at hfmt; exact Option.noConfusion hfmt
        | some u =>
          rw [htx, hurl] at hfmt
          exact ⟨tx, u, rfl, rfl, (Option.some.inj hfmt).symm⟩

/-- Witness for C9 on a one-entry response with both keys present. -/
theorem C9_search_success_shape_witness :
    searchResults (some [⟨some "Goa beaches", some "https://duckduckgo.com/goa"⟩]) ≠ [] ∧
    duckduckgo_search (SearchOutcome.success
        (some [⟨some "Goa beaches", some "https://duckduckgo.com/goa"⟩])) =
      "Goa beaches - https://duckduckgo.com/goa" := by
  have h := (C9_search_success_shape
    (some [⟨some "Goa beaches", some "https://duckduckgo.com/goa"⟩])).2.2.1 (by decide)
  exact ⟨by decide, h.trans (by decide)⟩

/-- C10: with valid dates, the generate guard accepts exactly when the
three text fields differ from the empty string — Python truthiness — so a
whitespace-only field such as " " passes and only "" blocks. -/
theorem C10_truthiness_guard (k fc dst int bt : String) (s e : Int) (hse : s < e) :
    (∃ crew, handleGenerate k ⟨fc, dst, int, some s, some e, bt⟩ = Outcome.run crew) ↔
      (fc ≠ "" ∧ dst ≠ "" ∧ int ≠ "") := by
  have hgen : handleGenerate k ⟨fc, dst, int, some s, some e, bt⟩ =
      (if fc ≠ "" ∧ dst ≠ "" ∧ int ≠ "" ∧ s < e then
        Outcome.run (buildCrew k fc dst int (trip_duration s e) bt)
      else Outcome.reject validationWarning) := rfl
  rw [hgen]
  constructor
  · rintro ⟨crew, hcrew⟩
    by_cases hc : fc ≠ "" ∧ dst ≠ "" ∧ int ≠ ""
    · exact hc
    · rw [if_neg (by tauto)] at hcrew
      exact absurd hcrew (fun hx => Outcome.noConfusion hx)
  · rintro ⟨h1, h2, h3⟩
    exact ⟨_, by rw [if_pos ⟨h1, h2, h3, hse⟩]⟩

/-- Witness for C10: the whitespace-only origin " " is accepted as
non-empty by the guard. -/
theorem C10_truthiness_guard_witness :
    (0 : Int) < 3 ∧ (" " : String) ≠ "" ∧
    (∃ crew, handleGenerate "key" ⟨" ", "Goa", "beaches", some 0, some 3, "moderate"⟩ =
      Outcome.run crew) :=
  ⟨by decide, by decide,
   (C10_truthiness_guard "key" " " "Goa" "beaches" "moderate" 0 3 (by decide)).mpr
     ⟨by decide, by decide, by decide⟩⟩

end PlanMyTrip
